import Mathlib

/-!
# redis_pkg_ratelimiter: the admission middleware and the limiter it calls

A shallow embedding of `src/middleware/rateLimiterMiddleware.js` and of the
limiter configured in `src/utils/rateLimiter.js`.

* JavaScript strings are Lean strings; `startsWith` and `slice` are the two
  string primitives the middleware uses, written over the character list.
* `rej.msBeforeNext` is an optional integer number of milliseconds: `none`
  stands for a rejection value without that field (a store error), for which
  JavaScript computes `NaN`.
* `Math.round(x / 1000)` on an integer `x` is `floor ((x + 500) / 1000)`
  (round to nearest, ties towards plus infinity).  This is exact as long as
  the quotient is computed exactly around the half-way points, which holds
  for every millisecond value below `2 ^ 40` in magnitude.
* The promise returned by `consume` is its outcome: resolved, or rejected
  with a value.  `next` is the Express continuation; it returns normally.
* What the middleware does is recorded as the list of its effects, in order.
-/

namespace RateLimiter

/-! ## JavaScript primitives used by the middleware -/

/-- The literal `'::ffff:'` of `rateLimiterMiddleware`. -/
def mappedPrefix : String := "::ffff:"

/-- The method `String.prototype.startsWith(p)`. -/
def startsWith (s p : String) : Bool :=
  p.data.isPrefixOf s.data

/-- The method `String.prototype.slice(n)` for a non-negative `n`. -/
def slice (s : String) (n : Nat) : String :=
  String.mk (s.data.drop n)

/-- The function `Math.round(ms / 1000)` on an integer number of milliseconds. -/
def roundSeconds (ms : Int) : Int :=
  (ms + 500) / 1000

/-- The expression `Math.round(rej.msBeforeNext / 1000) || 1`: a missing field
gives `NaN`, and both `NaN` and zero (of either sign) are falsy. -/
def retrySec (msBeforeNext : Option Int) : Int :=
  match msBeforeNext with
  | none => 1
  | some ms => if roundSeconds ms = 0 then 1 else roundSeconds ms

/-- The smallest integer `n` with `ms ≤ 1000 * n`, that is `ceil (ms / 1000)`. -/
def ceilSeconds (ms : Int) : Int :=
  -((-ms) / 1000)

/-! ## Requests, rejections, effects -/

/-- The two fields of the request that the middleware reads:
`req.headers['x-forwarded-for']`, a string when the header is present, and
`req.connection.remoteAddress`, the address string of a connected socket. -/
structure Request where
  forwardedFor : Option String
  remoteAddress : String
  deriving Repr, DecidableEq

/-- The value a rejected `consume` promise carries, as far as the middleware
looks at it. -/
structure Rejection where
  msBeforeNext : Option Int
  deriving Repr, DecidableEq

/-- Outcome of the promise returned by `rateLimiter.consume`. -/
inductive ConsumeResult where
  | resolved
  | rejected (rej : Rejection)
  deriving Repr, DecidableEq

/-- One observable action of the middleware. -/
inductive Effect where
  | log (label value : String)
  | consume (key : String)
  | next
  | setHeader (name value : String)
  | status (code : Nat)
  | send (body : String)
  deriving Repr, DecidableEq

/-! ## `rateLimiterMiddleware` -/

/-- Line 5: `req.headers['x-forwarded-for'] || req.connection.remoteAddress`.
An absent header and the empty string are both falsy. -/
def rawIp (req : Request) : String :=
  match req.forwardedFor with
  | none => req.remoteAddress
  | some h => if h = "" then req.remoteAddress else h

/-- Line 8: `ip.startsWith('::ffff:') ? ip.slice(7) : ip`. -/
def normalizeIp (ip : String) : String :=
  if startsWith ip mappedPrefix then slice ip 7 else ip

/-- The key handed to `consume` for a request. -/
def normalizedIp (req : Request) : String :=
  normalizeIp (rawIp req)

/-- The handler of `.catch`, lines 16 to 18. -/
def onRejected (rej : Rejection) : List Effect :=
  [ Effect.setHeader "Retry-After" (toString (retrySec rej.msBeforeNext)),
    Effect.status 429,
    Effect.send ("Too many requests... Wait for " ++ toString (retrySec rej.msBeforeNext) ++ " sec") ]

/-- The middleware of `src/middleware/rateLimiterMiddleware.js`, given what
`rateLimiter.consume` answers for each key. -/
def rateLimiterMiddleware (consume : String → ConsumeResult) (req : Request) : List Effect :=
  [ Effect.log "Normalized IP:" (normalizedIp req),
    Effect.consume (normalizedIp req) ] ++
  match consume (normalizedIp req) with
  | ConsumeResult.resolved => [Effect.next]
  | ConsumeResult.rejected rej => onRejected rej

/-! ## Reading a list of effects -/

/-- Number of calls of `next()`. -/
def nextCalls (es : List Effect) : Nat :=
  es.count Effect.next

/-- The status codes set on the response, in order. -/
def statuses : List Effect → List Nat
  | [] => []
  | Effect.status c :: es => c :: statuses es
  | _ :: es => statuses es

/-- The headers set on the response, in order. -/
def headers : List Effect → List (String × String)
  | [] => []
  | Effect.setHeader n v :: es => (n, v) :: headers es
  | _ :: es => headers es

/-- The bodies sent, in order. -/
def bodies : List Effect → List String
  | [] => []
  | Effect.send b :: es => b :: bodies es
  | _ :: es => bodies es

/-- The keys `consume` was called with, in order. -/
def consumedKeys : List Effect → List String
  | [] => []
  | Effect.consume k :: es => k :: consumedKeys es
  | _ :: es => consumedKeys es

/-! ## The limiter behind `rateLimiter.consume`

`src/utils/rateLimiter.js` only constructs the limiter: the class
`RateLimiterRedis` comes from the package `rate-limiter-flexible` and is not
among the sources.  Its `consume` is modelled from section 4.1 of the
specification.  Times are absolute milliseconds; the configuration keeps the
seconds of the source. -/

/-- The options passed to `new RateLimiterRedis` in `src/utils/rateLimiter.js`
(`storeClient` apart); `duration` and `blockDuration` are in seconds. -/
structure Config where
  keyPrefix : String
  points : Nat
  duration : Nat
  blockDuration : Nat
  deriving Repr, DecidableEq

/-- The limiter configured in `src/utils/rateLimiter.js`, lines 21 to 36. -/
def rateLimiter : Config :=
  { keyPrefix := "middleware", points := 10, duration := 60, blockDuration := 120 }

/-- Modelled from the spec: the per-key `RateRecord` of section 3, held in the
shared store by the absent `RateLimiterRedis`. -/
structure RateRecord where
  count : Nat
  windowExpiresAt : Nat
  blockedUntil : Option Nat
  deriving Repr, DecidableEq

/-- Modelled from the spec: the shared counter store, absence meaning zero
usage (section 3). -/
abbrev Store := String → Option RateRecord

/-- Modelled from the spec: the store with no record at all. -/
def emptyStore : Store := fun _ => none

/-- Modelled from the spec: the store key layout of section 6, one entry per
`keyPrefix:key`. -/
def storeKey (cfg : Config) (key : String) : String :=
  cfg.keyPrefix ++ ":" ++ key

/-- Modelled from the spec: the result of `consume` (section 4.1), the retry
hint being in milliseconds as in the `msBeforeNext` the middleware reads. -/
inductive Outcome where
  | admitted
  | denied (msBeforeNext : Nat)
  deriving Repr, DecidableEq

/-- Modelled from the spec: step 1 of `consume`, the block marker of a record
that exists and has not expired at `now`. -/
def activeBlock (now : Nat) (entry : Option RateRecord) : Option Nat :=
  match entry with
  | none => none
  | some r =>
    match r.blockedUntil with
    | none => none
    | some b => if now < b then some b else none

/-- Modelled from the spec: step 2 of `consume`, the counter and the window
end after the increment by `cost`; a record that is absent or whose window
has expired starts a window at `now`. -/
def incremented (cfg : Config) (now cost : Nat) (entry : Option RateRecord) : Nat × Nat :=
  match entry with
  | none => (cost, now + cfg.duration * 1000)
  | some r =>
    if now < r.windowExpiresAt then (r.count + cost, r.windowExpiresAt)
    else (cost, now + cfg.duration * 1000)

/-- Modelled from the spec: the block marker a record had before this call. -/
def priorBlock (entry : Option RateRecord) : Option Nat :=
  match entry with
  | none => none
  | some r => r.blockedUntil

/-- Modelled from the spec: the operation `consume(key, cost)` of section 4.1,
the absent `RateLimiterRedis.consume`, as one atomic step on the store at time
`now`: (1) an active block denies with the remaining block time; (2) otherwise
the counter is incremented; (3) a counter above `points` denies, records the
block when `blockDuration > 0` and hints `blockDuration`, else the remaining
window time; (4) otherwise the call is admitted. -/
def consume (cfg : Config) (now : Nat) (key : String) (cost : Nat) (store : Store) :
    Outcome × Store :=
  let entry := store (storeKey cfg key)
  match activeBlock now entry with
  | some b => (Outcome.denied (b - now), store)
  | none =>
    let cw := incremented cfg now cost entry
    if cfg.points < cw.1 then
      if 0 < cfg.blockDuration then
        (Outcome.denied (cfg.blockDuration * 1000),
          Function.update store (storeKey cfg key)
            (some { count := cw.1, windowExpiresAt := cw.2,
                    blockedUntil := some (now + cfg.blockDuration * 1000) }))
      else
        (Outcome.denied (cw.2 - now),
          Function.update store (storeKey cfg key)
            (some { count := cw.1, windowExpiresAt := cw.2, blockedUntil := priorBlock entry }))
    else
      (Outcome.admitted,
        Function.update store (storeKey cfg key)
          (some { count := cw.1, windowExpiresAt := cw.2, blockedUntil := priorBlock entry }))

/-- The promise `rateLimiter.consume(key)` settles as: resolved when admitted,
rejected with a rate-limit result carrying `msBeforeNext` when denied. -/
def toResult : Outcome → ConsumeResult
  | Outcome.admitted => ConsumeResult.resolved
  | Outcome.denied ms => ConsumeResult.rejected { msBeforeNext := some (ms : Int) }

/-- Consecutive `consume(key)` calls of cost 1 at the given times: the outcomes
in order. -/
def consumeSeq (cfg : Config) (key : String) : List Nat → Store → List Outcome
  | [], _ => []
  | t :: ts, store =>
    (consume cfg t key 1 store).1 :: consumeSeq cfg key ts (consume cfg t key 1 store).2

/-- One request through `app.use(rateLimiterMiddleware)` at time `now`: the
effects of the middleware and the store afterwards. -/
def handle (cfg : Config) (now : Nat) (req : Request) (store : Store) : List Effect × Store :=
  (rateLimiterMiddleware (fun k => toResult (consume cfg now k 1 store).1) req,
    (consume cfg now (normalizedIp req) 1 store).2)

/-- Consecutive requests, each with its arrival time: the effects of the
middleware for each, in order. -/
def serveSeq (cfg : Config) : List (Nat × Request) → Store → List (List Effect)
  | [], _ => []
  | c :: cs, store =>
    (handle cfg c.1 c.2 store).1 :: serveSeq cfg cs (handle cfg c.1 c.2 store).2

/-- What the middleware does for an admitted request with key `key`. -/
def forwarded (key : String) : List Effect :=
  [Effect.log "Normalized IP:" key, Effect.consume key, Effect.next]

/-- What the middleware does for a request with key `key` denied with
`msBeforeNext`. -/
def tooMany (key : String) (msBeforeNext : Option Int) : List Effect :=
  [Effect.log "Normalized IP:" key, Effect.consume key] ++ onRejected { msBeforeNext := msBeforeNext }

/-- What the middleware does for a request with key `key`, by the outcome of
`consume`. -/
def respond (key : String) : Outcome → List Effect
  | Outcome.admitted => forwarded key
  | Outcome.denied ms => tooMany key (some (ms : Int))

/-! ## Lemmas on the string primitives -/

theorem mappedPrefix_data : mappedPrefix.data = [':', ':', 'f', 'f', 'f', 'f', ':'] := rfl

theorem startsWith_iff (s p : String) : startsWith s p = true ↔ ∃ t : String, s = p ++ t := by
  unfold startsWith
  rw [List.isPrefixOf_iff_prefix]
  constructor
  · rintro ⟨l, hl⟩
    refine ⟨String.mk l, ?_⟩
    apply String.ext
    simp [hl]
  · rintro ⟨t, rfl⟩
    exact ⟨t.data, by simp⟩

theorem not_exists_append_of_startsWith_false (s p : String) (h : startsWith s p = false) :
    ¬ ∃ t : String, s = p ++ t := by
  intro hex
  rw [(startsWith_iff s p).2 hex] at h
  exact absurd h (by decide)

theorem startsWith_append (p t : String) : startsWith (p ++ t) p = true :=
  (startsWith_iff _ _).2 ⟨t, rfl⟩

theorem slice_mappedPrefix_append (t : String) : slice (mappedPrefix ++ t) 7 = t := by
  unfold slice
  apply String.ext
  show List.drop 7 (mappedPrefix ++ t).data = t.data
  rw [String.data_append, mappedPrefix_data]
  rfl

theorem normalizeIp_append (t : String) : normalizeIp (mappedPrefix ++ t) = t := by
  unfold normalizeIp
  rw [startsWith_append, if_pos rfl, slice_mappedPrefix_append]

theorem normalizeIp_of_not_startsWith (r : String) (h : startsWith r mappedPrefix = false) :
    normalizeIp r = r := by
  unfold normalizeIp
  simp [h]

theorem length_mappedPrefix_append (t : String) : (mappedPrefix ++ t).length = t.length + 7 := by
  show (mappedPrefix ++ t).data.length = t.data.length + 7
  rw [String.data_append, mappedPrefix_data, List.length_append]
  simp
  omega

theorem normalizeIp_twice_iff (s : String) :
    normalizeIp (normalizeIp s) = normalizeIp s ↔ startsWith (normalizeIp s) mappedPrefix = false := by
  constructor
  · intro h
    cases hs : startsWith (normalizeIp s) mappedPrefix with
    | false => rfl
    | true =>
      obtain ⟨t, ht⟩ := (startsWith_iff _ _).1 hs
      rw [ht, normalizeIp_append] at h
      have hlen := congrArg String.length h
      rw [length_mappedPrefix_append] at hlen
      omega
  · intro h
    exact normalizeIp_of_not_startsWith _ h

theorem startsWith_normalizeIp_iff (s : String) :
    startsWith (normalizeIp s) mappedPrefix = true ↔
      ∃ t : String, s = "::ffff:" ++ ("::ffff:" ++ t) := by
  constructor
  · intro h
    cases hs : startsWith s mappedPrefix with
    | false =>
      rw [normalizeIp_of_not_startsWith s hs, hs] at h
      exact absurd h (by simp)
    | true =>
      obtain ⟨u, rfl⟩ := (startsWith_iff _ _).1 hs
      rw [normalizeIp_append] at h
      obtain ⟨t, rfl⟩ := (startsWith_iff _ _).1 h
      exact ⟨t, rfl⟩
  · rintro ⟨t, rfl⟩
    show startsWith (normalizeIp (mappedPrefix ++ (mappedPrefix ++ t))) mappedPrefix = true
    rw [normalizeIp_append]
    exact startsWith_append _ _

/-! ## Lemmas on the middleware -/

theorem middleware_resolved (consume : String → ConsumeResult) (req : Request)
    (h : consume (normalizedIp req) = ConsumeResult.resolved) :
    rateLimiterMiddleware consume req = forwarded (normalizedIp req) := by
  unfold rateLimiterMiddleware forwarded
  rw [h]
  rfl

theorem middleware_rejected (consume : String → ConsumeResult) (req : Request) (rej : Rejection)
    (h : consume (normalizedIp req) = ConsumeResult.rejected rej) :
    rateLimiterMiddleware consume req = tooMany (normalizedIp req) rej.msBeforeNext := by
  unfold rateLimiterMiddleware tooMany
  rw [h]

theorem consumedKeys_middleware (consume : String → ConsumeResult) (req : Request) :
    consumedKeys (rateLimiterMiddleware consume req) = [normalizedIp req] := by
  cases h : consume (normalizedIp req) with
  | resolved => rw [middleware_resolved consume req h]; rfl
  | rejected rej => rw [middleware_rejected consume req rej h]; rfl

/-! ## The middleware: admission, denial, the retry value -/

/-- C2: when `consume` resolves, the middleware calls `next()` exactly once
and sets no status, no header and sends no body; when `consume` rejects with a
rate-limit result carrying `msBeforeNext = ms`, `next()` is not called, the
status is 429, the only header set is `Retry-After` with the decimal string of
`retrySec`, and the body text carries that same number. -/
theorem middleware_forwards_or_answers_429 (consume : String → ConsumeResult) (req : Request) :
    (consume (normalizedIp req) = ConsumeResult.resolved →
      nextCalls (rateLimiterMiddleware consume req) = 1 ∧
      statuses (rateLimiterMiddleware consume req) = [] ∧
      headers (rateLimiterMiddleware consume req) = [] ∧
      bodies (rateLimiterMiddleware consume req) = []) ∧
    (∀ ms : Int, consume (normalizedIp req) = ConsumeResult.rejected { msBeforeNext := some ms } →
      nextCalls (rateLimiterMiddleware consume req) = 0 ∧
      statuses (rateLimiterMiddleware consume req) = [429] ∧
      headers (rateLimiterMiddleware consume req)
        = [("Retry-After", toString (retrySec (some ms)))] ∧
      bodies (rateLimiterMiddleware consume req)
        = ["Too many requests... Wait for " ++ toString (retrySec (some ms)) ++ " sec"]) := by
  constructor
  · intro h
    rw [middleware_resolved consume req h]
    exact ⟨rfl, rfl, rfl, rfl⟩
  · intro ms h
    rw [middleware_rejected consume req _ h]
    exact ⟨rfl, rfl, rfl, rfl⟩

/-- Witness of C2: a request from `127.0.0.1`, once admitted and once rejected
with 120000 ms to wait. -/
theorem middleware_forwards_or_answers_429_witness :
    (nextCalls (rateLimiterMiddleware (fun _ => ConsumeResult.resolved)
        { forwardedFor := none, remoteAddress := "127.0.0.1" }) = 1 ∧
      statuses (rateLimiterMiddleware (fun _ => ConsumeResult.resolved)
        { forwardedFor := none, remoteAddress := "127.0.0.1" }) = [] ∧
      headers (rateLimiterMiddleware (fun _ => ConsumeResult.resolved)
        { forwardedFor := none, remoteAddress := "127.0.0.1" }) = [] ∧
      bodies (rateLimiterMiddleware (fun _ => ConsumeResult.resolved)
        { forwardedFor := none, remoteAddress := "127.0.0.1" }) = []) ∧
    (nextCalls (rateLimiterMiddleware
        (fun _ => ConsumeResult.rejected { msBeforeNext := some 120000 })
        { forwardedFor := none, remoteAddress := "127.0.0.1" }) = 0 ∧
      statuses (rateLimiterMiddleware
        (fun _ => ConsumeResult.rejected { msBeforeNext := some 120000 })
        { forwardedFor := none, remoteAddress := "127.0.0.1" }) = [429] ∧
      headers (rateLimiterMiddleware
        (fun _ => ConsumeResult.rejected { msBeforeNext := some 120000 })
        { forwardedFor := none, remoteAddress := "127.0.0.1" })
        = [("Retry-After", toString (retrySec (some 120000)))] ∧
      bodies (rateLimiterMiddleware
        (fun _ => ConsumeResult.rejected { msBeforeNext := some 120000 })
        { forwardedFor := none, remoteAddress := "127.0.0.1" })
        = ["Too many requests... Wait for " ++ toString (retrySec (some 120000)) ++ " sec"]) :=
  ⟨(middleware_forwards_or_answers_429 (fun _ => ConsumeResult.resolved)
      { forwardedFor := none, remoteAddress := "127.0.0.1" }).1 rfl,
   (middleware_forwards_or_answers_429
      (fun _ => ConsumeResult.rejected { msBeforeNext := some 120000 })
      { forwardedFor := none, remoteAddress := "127.0.0.1" }).2 120000 rfl⟩

/-- C3, counterexample: a rejection carrying `msBeforeNext = -1000` makes the
middleware send `Retry-After: -1`; the value is below 1. -/
theorem retrySec_negative_counterexample :
    ¬ (1 ≤ retrySec (some (-1000))) ∧
    headers (rateLimiterMiddleware (fun _ => ConsumeResult.rejected { msBeforeNext := some (-1000) })
      { forwardedFor := none, remoteAddress := "127.0.0.1" }) = [("Retry-After", "-1")] := by
  constructor
  · decide
  · decide

/-- C3, amended: for every rejection whose `msBeforeNext` is missing or is an
integer of at least -500 ms (so zero and every positive value), the value
`retrySec` that is sent is an integer of at least 1. -/
theorem retrySec_pos_of_ge (msBeforeNext : Option Int)
    (h : ∀ ms : Int, msBeforeNext = some ms → -500 ≤ ms) :
    1 ≤ retrySec msBeforeNext := by
  cases msBeforeNext with
  | none => simp [retrySec]
  | some ms =>
    have hms := h ms rfl
    unfold retrySec roundSeconds
    dsimp only
    split_ifs with h0 <;> omega

/-- Witness of C3 (amended): a rejection carrying zero milliseconds. -/
theorem retrySec_pos_of_ge_witness : 1 ≤ retrySec (some 0) :=
  retrySec_pos_of_ge (some 0) (by intro ms h; cases h; decide)

/-- C4, counterexample: for `msBeforeNext = 1400` the middleware computes
`retrySec = 1`, not `ceil (1400 / 1000) = 2`, and 1000 ms is less than 1400 ms. -/
theorem retrySec_not_ceil_counterexample :
    ¬ ((0 : Int) < 1400 →
        retrySec (some 1400) = ceilSeconds 1400 ∧ (1400 : Int) ≤ retrySec (some 1400) * 1000) := by
  decide

/-- C4, amended: for every positive integer `msBeforeNext`, `retrySec` is
`msBeforeNext / 1000` rounded to the nearest whole second, a half going up,
and 1 when that is zero: it is `ceil (msBeforeNext / 1000)` or one less, it is
the ceiling exactly when `msBeforeNext < 1000` or the remainder modulo 1000 is
0 or at least 500, and the advertised wait falls short of the remaining time
by at most 499 ms. -/
theorem retrySec_rounds_to_nearest (ms : Int) (h : 0 < ms) :
    (retrySec (some ms) = ceilSeconds ms ∨ retrySec (some ms) = ceilSeconds ms - 1) ∧
    (retrySec (some ms) = ceilSeconds ms ↔ (ms < 1000 ∨ ms % 1000 = 0 ∨ 500 ≤ ms % 1000)) ∧
    ms - 499 ≤ retrySec (some ms) * 1000 ∧
    (500 ≤ ms → retrySec (some ms) * 1000 ≤ ms + 500) ∧
    (ms < 500 → retrySec (some ms) = 1) := by
  unfold retrySec roundSeconds ceilSeconds
  dsimp only
  split_ifs with h0 <;> omega

/-- Witness of C4 (amended): 1400 ms gives 1 second, 1500 ms would give 2. -/
theorem retrySec_rounds_to_nearest_witness :
    (retrySec (some 1400) = ceilSeconds 1400 ∨ retrySec (some 1400) = ceilSeconds 1400 - 1) ∧
    (retrySec (some 1400) = ceilSeconds 1400 ↔
      ((1400 : Int) < 1000 ∨ (1400 : Int) % 1000 = 0 ∨ 500 ≤ (1400 : Int) % 1000)) ∧
    (1400 : Int) - 499 ≤ retrySec (some 1400) * 1000 ∧
    ((500 : Int) ≤ 1400 → retrySec (some 1400) * 1000 ≤ 1400 + 500) ∧
    ((1400 : Int) < 500 → retrySec (some 1400) = 1) :=
  retrySec_rounds_to_nearest 1400 (by decide)

/-! ## The middleware: the key -/

/-- C5: normalisation strips exactly the leading `'::ffff:'`: for every `s`
the key of `'::ffff:' ++ s` is `s`; every `r` that does not start with
`'::ffff:'` is its own key; so `'::ffff:127.0.0.1'` and `'127.0.0.1'` have the
key `'127.0.0.1'`, and requests from the two addresses call `consume` with
that one key. -/
theorem normalizeIp_strips_mapped (consume₁ consume₂ : String → ConsumeResult) :
    (∀ s : String, normalizeIp ("::ffff:" ++ s) = s) ∧
    (∀ r : String, (¬ ∃ t : String, r = "::ffff:" ++ t) → normalizeIp r = r) ∧
    normalizeIp "::ffff:127.0.0.1" = "127.0.0.1" ∧
    normalizeIp "127.0.0.1" = "127.0.0.1" ∧
    consumedKeys (rateLimiterMiddleware consume₁
      { forwardedFor := none, remoteAddress := "::ffff:127.0.0.1" }) = ["127.0.0.1"] ∧
    consumedKeys (rateLimiterMiddleware consume₂
      { forwardedFor := none, remoteAddress := "127.0.0.1" }) = ["127.0.0.1"] := by
  refine ⟨fun s => normalizeIp_append s, ?_, by decide, by decide, ?_, ?_⟩
  · intro r hr
    apply normalizeIp_of_not_startsWith
    cases hs : startsWith r mappedPrefix with
    | false => rfl
    | true => exact absurd ((startsWith_iff _ _).1 hs) hr
  · rw [consumedKeys_middleware]; decide
  · rw [consumedKeys_middleware]; decide

/-- Witness of C5: the address `'10.0.0.7'` has no `'::ffff:'` in front and is
its own key. -/
theorem normalizeIp_strips_mapped_witness : normalizeIp "10.0.0.7" = "10.0.0.7" :=
  (normalizeIp_strips_mapped (fun _ => ConsumeResult.resolved)
    (fun _ => ConsumeResult.resolved)).2.1 "10.0.0.7" (not_exists_append_of_startsWith_false _ _ (by decide))

/-- C8, counterexample: the key of `'::ffff:::ffff:1.2.3.4'` is
`'::ffff:1.2.3.4'`, which still begins with `'::ffff:'` and whose own key is
`'1.2.3.4'`. -/
theorem normalizeIp_not_idempotent_counterexample :
    normalizeIp (normalizeIp "::ffff:::ffff:1.2.3.4") ≠ normalizeIp "::ffff:::ffff:1.2.3.4" ∧
    startsWith (normalizeIp "::ffff:::ffff:1.2.3.4") "::ffff:" = true := by
  constructor
  · decide
  · decide

/-- C8, amended: normalisation strips one leading `'::ffff:'`, not all of them:
`normalise (normalise s) = normalise s` holds exactly for the strings `s` that
do not begin with `'::ffff:::ffff:'`, and those are exactly the strings whose
key does not begin with `'::ffff:'`. -/
theorem normalizeIp_idempotent_iff (s : String) :
    (normalizeIp (normalizeIp s) = normalizeIp s ↔
      ¬ ∃ t : String, s = "::ffff:" ++ ("::ffff:" ++ t)) ∧
    (startsWith (normalizeIp s) "::ffff:" = false ↔
      ¬ ∃ t : String, s = "::ffff:" ++ ("::ffff:" ++ t)) := by
  have key : startsWith (normalizeIp s) mappedPrefix = false ↔
      ¬ ∃ t : String, s = "::ffff:" ++ ("::ffff:" ++ t) := by
    rw [← startsWith_normalizeIp_iff]
    simp
  exact ⟨(normalizeIp_twice_iff s).trans key, key⟩

/-- Witness of C8 (amended): `'::ffff:127.0.0.1'` has a single `'::ffff:'`, and
normalising its key again changes nothing. -/
theorem normalizeIp_idempotent_iff_witness :
    normalizeIp (normalizeIp "::ffff:127.0.0.1") = normalizeIp "::ffff:127.0.0.1" :=
  (normalizeIp_idempotent_iff "::ffff:127.0.0.1").1.2 (by
    rintro ⟨t, ht⟩
    exact not_exists_append_of_startsWith_false "::ffff:127.0.0.1" "::ffff:::ffff:" (by decide)
      ⟨t, by rw [ht]; apply String.ext; simp⟩)

/-- C10: two requests with the same non-empty `x-forwarded-for` value call
`consume` with the same key, the normalised header value, whatever their
remote addresses; a request without the header, or with an empty one, calls
`consume` with its normalised remote address. -/
theorem key_from_forwarded_header (consume₁ consume₂ : String → ConsumeResult)
    (r₁ r₂ : Request) :
    (∀ h : String, h ≠ "" → r₁.forwardedFor = some h → r₂.forwardedFor = some h →
      consumedKeys (rateLimiterMiddleware consume₁ r₁) = [normalizeIp h] ∧
      consumedKeys (rateLimiterMiddleware consume₂ r₂) = [normalizeIp h]) ∧
    ((r₁.forwardedFor = none ∨ r₁.forwardedFor = some "") →
      consumedKeys (rateLimiterMiddleware consume₁ r₁) = [normalizeIp r₁.remoteAddress]) := by
  constructor
  · intro h hne h₁ h₂
    rw [consumedKeys_middleware, consumedKeys_middleware]
    unfold normalizedIp rawIp
    rw [h₁, h₂]
    simp [hne]
  · intro h
    rw [consumedKeys_middleware]
    unfold normalizedIp rawIp
    rcases h with h | h <;> simp [h]

/-- Witness of C10: the header `'::ffff:9.9.9.9'` on connections from two
addresses, and a request with an empty header. -/
theorem key_from_forwarded_header_witness :
    (consumedKeys (rateLimiterMiddleware (fun _ => ConsumeResult.resolved)
        { forwardedFor := some "::ffff:9.9.9.9", remoteAddress := "10.0.0.1" })
        = [normalizeIp "::ffff:9.9.9.9"] ∧
      consumedKeys (rateLimiterMiddleware (fun _ => ConsumeResult.resolved)
        { forwardedFor := some "::ffff:9.9.9.9", remoteAddress := "10.0.0.2" })
        = [normalizeIp "::ffff:9.9.9.9"]) ∧
    consumedKeys (rateLimiterMiddleware (fun _ => ConsumeResult.resolved)
        { forwardedFor := some "", remoteAddress := "10.0.0.3" })
        = [normalizeIp "10.0.0.3"] :=
  ⟨(key_from_forwarded_header (fun _ => ConsumeResult.resolved) (fun _ => ConsumeResult.resolved)
      { forwardedFor := some "::ffff:9.9.9.9", remoteAddress := "10.0.0.1" }
      { forwardedFor := some "::ffff:9.9.9.9", remoteAddress := "10.0.0.2" }).1
      "::ffff:9.9.9.9" (by decide) rfl rfl,
   (key_from_forwarded_header (fun _ => ConsumeResult.resolved) (fun _ => ConsumeResult.resolved)
      { forwardedFor := some "", remoteAddress := "10.0.0.3" }
      { forwardedFor := none, remoteAddress := "10.0.0.4" }).2 (Or.inr rfl)⟩

/-! ## The middleware: store errors and empty keys -/

/-- C6, counterexample: when `consume` rejects with an error that has no
`msBeforeNext`, the middleware answers with status 429 and `Retry-After: 1`;
no status of the 5xx class is set. -/
theorem store_error_answered_429_counterexample :
    statuses (rateLimiterMiddleware (fun _ => ConsumeResult.rejected { msBeforeNext := none })
      { forwardedFor := none, remoteAddress := "127.0.0.1" }) = [429] ∧
    headers (rateLimiterMiddleware (fun _ => ConsumeResult.rejected { msBeforeNext := none })
      { forwardedFor := none, remoteAddress := "127.0.0.1" }) = [("Retry-After", "1")] ∧
    ¬ ∃ c ∈ statuses (rateLimiterMiddleware
        (fun _ => ConsumeResult.rejected { msBeforeNext := none })
        { forwardedFor := none, remoteAddress := "127.0.0.1" }), 500 ≤ c ∧ c < 600 := by
  refine ⟨by decide, by decide, ?_⟩
  decide

/-- C6, amended: when `consume` rejects with an error that carries no
`msBeforeNext`, the middleware does not call `next()` and answers as for a
denial: status 429, header `Retry-After: 1` and the body
`Too many requests... Wait for 1 sec`, the same effects as for a rate-limit
rejection with 1000 ms to wait. -/
theorem store_error_answered_as_denial (consume : String → ConsumeResult) (req : Request)
    (h : consume (normalizedIp req) = ConsumeResult.rejected { msBeforeNext := none }) :
    nextCalls (rateLimiterMiddleware consume req) = 0 ∧
    statuses (rateLimiterMiddleware consume req) = [429] ∧
    headers (rateLimiterMiddleware consume req) = [("Retry-After", "1")] ∧
    bodies (rateLimiterMiddleware consume req) = ["Too many requests... Wait for 1 sec"] ∧
    rateLimiterMiddleware consume req =
      rateLimiterMiddleware (fun _ => ConsumeResult.rejected { msBeforeNext := some 1000 }) req := by
  rw [middleware_rejected consume req _ h,
    middleware_rejected (fun _ => ConsumeResult.rejected { msBeforeNext := some 1000 }) req _ rfl]
  exact ⟨rfl, rfl, rfl, rfl, rfl⟩

/-- Witness of C6 (amended): a request from `127.0.0.1` while every `consume`
fails with a store error. -/
theorem store_error_answered_as_denial_witness :
    nextCalls (rateLimiterMiddleware (fun _ => ConsumeResult.rejected { msBeforeNext := none })
      { forwardedFor := none, remoteAddress := "127.0.0.1" }) = 0 ∧
    statuses (rateLimiterMiddleware (fun _ => ConsumeResult.rejected { msBeforeNext := none })
      { forwardedFor := none, remoteAddress := "127.0.0.1" }) = [429] ∧
    headers (rateLimiterMiddleware (fun _ => ConsumeResult.rejected { msBeforeNext := none })
      { forwardedFor := none, remoteAddress := "127.0.0.1" }) = [("Retry-After", "1")] ∧
    bodies (rateLimiterMiddleware (fun _ => ConsumeResult.rejected { msBeforeNext := none })
      { forwardedFor := none, remoteAddress := "127.0.0.1" })
      = ["Too many requests... Wait for 1 sec"] ∧
    rateLimiterMiddleware (fun _ => ConsumeResult.rejected { msBeforeNext := none })
      { forwardedFor := none, remoteAddress := "127.0.0.1" } =
      rateLimiterMiddleware (fun _ => ConsumeResult.rejected { msBeforeNext := some 1000 })
        { forwardedFor := none, remoteAddress := "127.0.0.1" } :=
  store_error_answered_as_denial (fun _ => ConsumeResult.rejected { msBeforeNext := none })
    { forwardedFor := none, remoteAddress := "127.0.0.1" } rfl

/-- C7, counterexample: a request whose remote address is exactly `'::ffff:'`
has the empty key; the middleware calls `consume` with the empty key and, when
that is admitted, forwards the request without setting any status. -/
theorem empty_key_consumed_counterexample :
    normalizedIp { forwardedFor := none, remoteAddress := "::ffff:" } = "" ∧
    rateLimiterMiddleware (fun _ => ConsumeResult.resolved)
      { forwardedFor := none, remoteAddress := "::ffff:" }
      = [Effect.log "Normalized IP:" "", Effect.consume "", Effect.next] := by
  constructor
  · decide
  · decide

/-- C7, amended: for every request whose normalised key is the empty string
the middleware checks nothing: it calls `consume` once, with the empty key,
forwards the request when that resolves, answers 429 when that rejects, and
sets no other status. -/
theorem empty_key_not_validated (consume : String → ConsumeResult) (req : Request)
    (h : normalizedIp req = "") :
    consumedKeys (rateLimiterMiddleware consume req) = [""] ∧
    (consume "" = ConsumeResult.resolved →
      rateLimiterMiddleware consume req = forwarded "") ∧
    (∀ rej : Rejection, consume "" = ConsumeResult.rejected rej →
      rateLimiterMiddleware consume req = tooMany "" rej.msBeforeNext) ∧
    (∀ c ∈ statuses (rateLimiterMiddleware consume req), c = 429) := by
  refine ⟨?_, ?_, ?_, ?_⟩
  · rw [consumedKeys_middleware, h]
  · intro hc
    rw [← h] at hc ⊢
    exact middleware_resolved consume req hc
  · intro rej hc
    rw [← h] at hc ⊢
    exact middleware_rejected consume req rej hc
  · intro c hc
    cases hr : consume (normalizedIp req) with
    | resolved =>
      rw [middleware_resolved consume req hr] at hc
      simp [forwarded, statuses] at hc
    | rejected rej =>
      rw [middleware_rejected consume req rej hr] at hc
      simpa [tooMany, onRejected, statuses] using hc

/-- Witness of C7 (amended): the remote address `'::ffff:'` with an admitting
limiter. -/
theorem empty_key_not_validated_witness :
    consumedKeys (rateLimiterMiddleware (fun _ => ConsumeResult.resolved)
      { forwardedFor := none, remoteAddress := "::ffff:" }) = [""] ∧
    rateLimiterMiddleware (fun _ => ConsumeResult.resolved)
      { forwardedFor := none, remoteAddress := "::ffff:" } = forwarded "" :=
  ⟨(empty_key_not_validated (fun _ => ConsumeResult.resolved)
      { forwardedFor := none, remoteAddress := "::ffff:" } (by decide)).1,
   (empty_key_not_validated (fun _ => ConsumeResult.resolved)
      { forwardedFor := none, remoteAddress := "::ffff:" } (by decide)).2.1 rfl⟩

/-! ## The limiter: one window -/

theorem consume_fresh (cfg : Config) (t : Nat) (key : String) (store : Store)
    (hfresh : store (storeKey cfg key) = none) (hp : 1 ≤ cfg.points) :
    consume cfg t key 1 store =
      (Outcome.admitted, Function.update store (storeKey cfg key)
        (some { count := 1, windowExpiresAt := t + cfg.duration * 1000, blockedUntil := none })) := by
  unfold consume
  simp only [hfresh, activeBlock, incremented, priorBlock]
  rw [if_neg (by omega)]

theorem consume_within (cfg : Config) (t : Nat) (key : String) (store : Store) (c w : Nat)
    (hrec : store (storeKey cfg key)
      = some { count := c, windowExpiresAt := w, blockedUntil := none })
    (ht : t < w) (hc : c + 1 ≤ cfg.points) :
    consume cfg t key 1 store =
      (Outcome.admitted, Function.update store (storeKey cfg key)
        (some { count := c + 1, windowExpiresAt := w, blockedUntil := none })) := by
  unfold consume
  simp only [hrec, activeBlock, incremented, priorBlock, if_pos ht]
  rw [if_neg (by omega)]

theorem consume_over (cfg : Config) (t : Nat) (key : String) (store : Store) (c w : Nat)
    (hrec : store (storeKey cfg key)
      = some { count := c, windowExpiresAt := w, blockedUntil := none })
    (ht : t < w) (hc : cfg.points < c + 1) (hb : 0 < cfg.blockDuration) :
    (consume cfg t key 1 store).1 = Outcome.denied (cfg.blockDuration * 1000) := by
  unfold consume
  simp only [hrec, activeBlock, incremented, priorBlock, if_pos ht]
  rw [if_pos hc, if_pos hb]

theorem consumeSeq_window (cfg : Config) (key : String) (hb : 0 < cfg.blockDuration) (w u : Nat)
    (hu : u < w) :
    ∀ (ts : List Nat) (store : Store) (c : Nat),
      store (storeKey cfg key) = some { count := c, windowExpiresAt := w, blockedUntil := none } →
      (∀ t ∈ ts, t < w) → c + ts.length = cfg.points →
      consumeSeq cfg key (ts ++ [u]) store =
        List.replicate ts.length Outcome.admitted ++ [Outcome.denied (cfg.blockDuration * 1000)] := by
  intro ts
  induction ts with
  | nil =>
    intro store c hrec _ hc
    simp only [List.length_nil, Nat.add_zero] at hc
    simp only [List.nil_append, consumeSeq, List.length_nil, List.replicate_zero]
    rw [consume_over cfg u key store c w hrec hu (by omega) hb]
  | cons t ts ih =>
    intro store c hrec hts hc
    simp only [List.length_cons] at hc
    have ht : t < w := hts t (List.mem_cons_self _ _)
    have hstep := consume_within cfg t key store c w hrec ht (by omega)
    simp only [List.cons_append, consumeSeq, List.length_cons, List.replicate_succ]
    rw [hstep]
    simp only [List.cons.injEq, true_and]
    exact ih _ (c + 1) (by simp) (fun x hx => hts x (List.mem_cons_of_mem _ hx)) (by omega)

theorem consumeSeq_fresh (cfg : Config) (key : String) (hb : 0 < cfg.blockDuration)
    (hp : 1 ≤ cfg.points) (store : Store) (hfresh : store (storeKey cfg key) = none)
    (t₀ u : Nat) (ts : List Nat) (hlen : ts.length + 1 = cfg.points)
    (hts : ∀ t ∈ ts, t < t₀ + cfg.duration * 1000) (hu : u < t₀ + cfg.duration * 1000) :
    consumeSeq cfg key (t₀ :: (ts ++ [u])) store =
      List.replicate cfg.points Outcome.admitted ++ [Outcome.denied (cfg.blockDuration * 1000)] := by
  rw [consumeSeq, consume_fresh cfg t₀ key store hfresh hp]
  rw [consumeSeq_window cfg key hb (t₀ + cfg.duration * 1000) u hu ts _ 1 (by simp) hts (by omega)]
  rw [← hlen, List.replicate_succ, List.cons_append]

theorem handle_eq (cfg : Config) (now : Nat) (req : Request) (store : Store) :
    handle cfg now req store =
      (respond (normalizedIp req) (consume cfg now (normalizedIp req) 1 store).1,
        (consume cfg now (normalizedIp req) 1 store).2) := by
  unfold handle
  congr 1
  cases h : (consume cfg now (normalizedIp req) 1 store).1 with
  | admitted =>
    exact middleware_resolved _ req (by simp [h, toResult])
  | denied ms =>
    exact middleware_rejected _ req { msBeforeNext := some (ms : Int) } (by simp [h, toResult])

theorem serveSeq_eq_map (cfg : Config) (key : String) :
    ∀ (calls : List (Nat × Request)) (store : Store),
      (∀ c ∈ calls, normalizedIp c.2 = key) →
      serveSeq cfg calls store =
        (consumeSeq cfg key (calls.map Prod.fst) store).map (respond key) := by
  intro calls
  induction calls with
  | nil => intro store _; rfl
  | cons c cs ih =>
    intro store h
    have hc : normalizedIp c.2 = key := h c (List.mem_cons_self _ _)
    simp only [serveSeq, List.map_cons, consumeSeq]
    rw [handle_eq, hc]
    simp only [List.cons.injEq, true_and]
    exact ih _ (fun x hx => h x (List.mem_cons_of_mem _ hx))

/-- C1: with the configured limiter (10 points, 60 s window, 120 s block), on a
key without a record, a first request at `t₀` followed by ten more inside the
window `[t₀, t₀ + 60 s)`, all with that key: the first ten `consume` calls are
admitted and the middleware forwards each request, the eleventh is denied and
the middleware answers 429 with `Retry-After: 120`. -/
theorem configured_limit_admits_ten_then_denies (key : String) (store : Store) (t₀ : Nat)
    (r₀ : Request) (rest : List (Nat × Request))
    (hfresh : store (storeKey rateLimiter key) = none)
    (hlen : rest.length = 10)
    (hkey : ∀ c ∈ (t₀, r₀) :: rest, normalizedIp c.2 = key)
    (hwin : ∀ c ∈ rest, t₀ ≤ c.1 ∧ c.1 < t₀ + 60000) :
    consumeSeq rateLimiter key (t₀ :: rest.map Prod.fst) store =
      List.replicate 10 Outcome.admitted ++ [Outcome.denied 120000] ∧
    serveSeq rateLimiter ((t₀, r₀) :: rest) store =
      List.replicate 10 [Effect.log "Normalized IP:" key, Effect.consume key, Effect.next] ++
        [[Effect.log "Normalized IP:" key, Effect.consume key,
          Effect.setHeader "Retry-After" "120", Effect.status 429,
          Effect.send "Too many requests... Wait for 120 sec"]] := by
  have hseq : consumeSeq rateLimiter key (t₀ :: rest.map Prod.fst) store =
      List.replicate 10 Outcome.admitted ++ [Outcome.denied 120000] := by
    rcases List.eq_nil_or_concat rest with hnil | ⟨init, last, hrest⟩
    · rw [hnil] at hlen
      exact absurd hlen (by decide)
    · rw [List.concat_eq_append] at hrest
      subst hrest
      have hinit : init.length = 9 := by
        simp only [List.length_append, List.length_singleton] at hlen
        omega
      rw [List.map_append, List.map_singleton]
      exact consumeSeq_fresh rateLimiter key (by decide) (by decide) store hfresh t₀ last.1
        (init.map Prod.fst) (by simp [hinit, rateLimiter])
        (by
          intro t ht
          obtain ⟨c, hc, rfl⟩ := List.mem_map.1 ht
          exact (hwin c (List.mem_append_left _ hc)).2)
        (hwin last (List.mem_append_right _ (List.mem_singleton_self _))).2
  refine ⟨hseq, ?_⟩
  have hmap := serveSeq_eq_map rateLimiter key ((t₀, r₀) :: rest) store hkey
  rw [List.map_cons] at hmap
  rw [hmap, hseq]
  rfl

/-- Witness of C1: eleven requests from `127.0.0.1`, half a second apart, on
the empty store. -/
theorem configured_limit_admits_ten_then_denies_witness :
    serveSeq rateLimiter
      ((0, { forwardedFor := none, remoteAddress := "127.0.0.1" }) ::
        (List.range 10).map
          (fun i => (500 * (i + 1), { forwardedFor := none, remoteAddress := "::ffff:127.0.0.1" })))
      emptyStore =
      List.replicate 10
        [Effect.log "Normalized IP:" "127.0.0.1", Effect.consume "127.0.0.1", Effect.next] ++
        [[Effect.log "Normalized IP:" "127.0.0.1", Effect.consume "127.0.0.1",
          Effect.setHeader "Retry-After" "120", Effect.status 429,
          Effect.send "Too many requests... Wait for 120 sec"]] :=
  (configured_limit_admits_ten_then_denies "127.0.0.1" emptyStore 0
    { forwardedFor := none, remoteAddress := "127.0.0.1" }
    ((List.range 10).map
      (fun i => (500 * (i + 1), { forwardedFor := none, remoteAddress := "::ffff:127.0.0.1" })))
    rfl (by decide) (by decide) (by decide)).2

end RateLimiter
